import Mathlib

/-!
Verification of the disposable-mailbox core of `src/main.py` (classes
`TempMailProvider` and `AviraAutomation`).  Python values appearing in
parsed JSON responses are shallowly embedded as `PyVal`; network calls
are modelled by passing each call's outcome (`Except` for a raised
exception) as an explicit argument; object attributes become an explicit
`ProviderState` record threaded through the functions.
-/

/-- A Python value as it can appear in a parsed JSON response body. -/
inductive PyVal where
  | none
  | bool (b : Bool)
  | int (n : Int)
  | str (s : String)
  | list (xs : List PyVal)
  | dict (fields : List (String × PyVal))

instance : Inhabited PyVal := ⟨PyVal.none⟩

/-- Python truthiness (`bool(v)`), as used by `x or y`. -/
def PyVal.truthy : PyVal → Bool
  | .none => false
  | .bool b => b
  | .int n => n != 0
  | .str s => s != ""
  | .list xs => !xs.isEmpty
  | .dict fs => !fs.isEmpty

mutual

/-- Python `==` on embedded values (structural; only shapes that occur in
JSON responses are modelled). -/
def PyVal.beq : PyVal → PyVal → Bool
  | .none, .none => true
  | .bool a, .bool b => a == b
  | .int a, .int b => a == b
  | .str a, .str b => a == b
  | .list xs, .list ys => PyVal.beqList xs ys
  | .dict xs, .dict ys => PyVal.beqFields xs ys
  | _, _ => false

def PyVal.beqList : List PyVal → List PyVal → Bool
  | [], [] => true
  | x :: xs, y :: ys => PyVal.beq x y && PyVal.beqList xs ys
  | _, _ => false

def PyVal.beqFields : List (String × PyVal) → List (String × PyVal) → Bool
  | [], [] => true
  | (k1, v1) :: xs, (k2, v2) :: ys => k1 == k2 && PyVal.beq v1 v2 && PyVal.beqFields xs ys
  | _, _ => false

end

instance : BEq PyVal := ⟨PyVal.beq⟩

/-- Is the value a Python dict? -/
def PyVal.isDict : PyVal → Bool
  | .dict _ => true
  | _ => false

/-- First binding of key `k` in a dict's field list (Python dicts have
unique keys, so first = only). -/
def lookupField (fs : List (String × PyVal)) (k : String) : Option PyVal :=
  (fs.find? (fun p => p.1 == k)).map (fun p => p.2)

/-- Python `v.get(k, d)`: raises `AttributeError` when `v` is not a dict,
otherwise returns the bound value or the default `d`. -/
def pyDictGet (v : PyVal) (k : String) (d : PyVal) : Except String PyVal :=
  match v with
  | .dict fs => .ok ((lookupField fs k).getD d)
  | _ => .error "AttributeError"

/-- Python `a or b`. -/
def pyOr (a b : PyVal) : PyVal :=
  if a.truthy then a else b

/-- Python `"".join(xs)`: concatenates a list of strings, raising
`TypeError` on a non-string element. -/
def joinStrs : List PyVal → Except String String
  | [] => .ok ""
  | .str s :: rest => (joinStrs rest).map (fun t => s ++ t)
  | _ :: _ => .error "TypeError"

/-- A value used where Python string concatenation requires `str`
(raises `TypeError` otherwise). -/
def asStr : PyVal → Except String String
  | .str s => .ok s
  | _ => .error "TypeError"

mutual

/-- Python `str(v)` as used by f-string interpolation.  Exact for the
scalar shapes that actually reach an f-string in the program; container
rendering is approximated (it never feeds a claim's input). -/
def pyStrOf : PyVal → String
  | .none => "None"
  | .bool b => if b then "True" else "False"
  | .int n => toString n
  | .str s => s
  | .list xs => "[" ++ String.intercalate ", " (pyStrOfList xs) ++ "]"
  | .dict _ => "\x7bdict\x7d"

def pyStrOfList : List PyVal → List String
  | [] => []
  | x :: xs => pyStrOf x :: pyStrOfList xs

end

/-- Python `random.choice(v)`: the random draw is modelled by the index
`k` (taken modulo the length).  Raises `IndexError` on an empty sequence
and `TypeError` on a non-sequence. -/
def pyChoice (v : PyVal) (k : Nat) : Except String PyVal :=
  match v with
  | .list xs => if xs.isEmpty then .error "IndexError" else .ok (xs.getD (k % xs.length) PyVal.none)
  | .str s =>
    if s.isEmpty then .error "IndexError"
    else .ok (.str (String.mk [s.toList.getD (k % s.length) ' ']))
  | _ => .error "TypeError"

/-! ## `TempMailProvider.read_message` (src/main.py lines 96-118) -/

/-- The per-field step of the `mailtm` branch: `x = raw or ""`, then
`if isinstance(x, list): x = "".join(x)`, then `x` must be a string for
the final concatenation (`TypeError` otherwise). -/
def mailtmPart (raw : PyVal) : Except String String :=
  match pyOr raw (.str "") with
  | .list xs => joinStrs xs
  | .str s => .ok s
  | _ => .error "TypeError"

/-- `read_message`, `mailtm` branch: `body` is the parsed JSON of the
per-message GET.  `text = data.get("text") or ""`, list fragments joined,
then `text + "\n" + html`. -/
def read_message_mailtm (body : PyVal) : Except String String := do
  let textRaw ← pyDictGet body "text" PyVal.none
  let htmlRaw ← pyDictGet body "html" PyVal.none
  let text ← mailtmPart textRaw
  let html ← mailtmPart htmlRaw
  pure (text ++ "\n" ++ html)

/-- `read_message`, `tempmail_org` branch: iterates over the fresh
listing returned by `get_messages`, and on the first message whose
`"id"` equals `msg_id` returns
`m.get("mail_text") or m.get("text") or m.get("body", "")`;
returns `""` when no message matches. -/
def read_message_tempmail (listing : List PyVal) (msg_id : String) : Except String PyVal :=
  match listing with
  | [] => .ok (.str "")
  | m :: rest => do
    let idv ← pyDictGet m "id" PyVal.none
    if idv == PyVal.str msg_id then
      let a ← pyDictGet m "mail_text" PyVal.none
      let b ← pyDictGet m "text" PyVal.none
      let c ← pyDictGet m "body" (PyVal.str "")
      pure (pyOr a (pyOr b c))
    else
      read_message_tempmail rest msg_id

/-- `read_message`, `maildrop` branch: `body` is the parsed GraphQL
response; `msg = body.get("data", \x7b\x7d).get("message", \x7b\x7d)` and the
result is `(msg.get("data") or "") + "\n" + (msg.get("html") or "")`. -/
def read_message_maildrop (body : PyVal) : Except String String := do
  let d ← pyDictGet body "data" (PyVal.dict [])
  let msg ← pyDictGet d "message" (PyVal.dict [])
  let mdata ← pyDictGet msg "data" PyVal.none
  let mhtml ← pyDictGet msg "html" PyVal.none
  let s1 ← asStr (pyOr mdata (.str ""))
  let s2 ← asStr (pyOr mhtml (.str ""))
  pure (s1 ++ "\n" ++ s2)

/-! ## `TempMailProvider.get_messages` (src/main.py lines 80-94) -/

/-- `get_messages`, `mailtm` branch:
`resp.json().get("hydra:member", [])`. -/
def get_messages_mailtm (body : PyVal) : Except String PyVal :=
  pyDictGet body "hydra:member" (PyVal.list [])

/-- `get_messages`, `tempmail_org` branch:
`resp.json() if resp.ok else []` — on a non-2xx status the body is never
parsed, so `parse` (the outcome of `resp.json()`) is only consulted when
`respOk` holds. -/
def get_messages_tempmail (respOk : Bool) (parse : Except String PyVal) : Except String PyVal :=
  if respOk then parse else .ok (.list [])

/-- `get_messages`, `maildrop` branch:
`resp.json().get("data", \x7b\x7d).get("inbox", [])`. -/
def get_messages_maildrop (body : PyVal) : Except String PyVal := do
  let d ← pyDictGet body "data" (PyVal.dict [])
  pyDictGet d "inbox" (PyVal.list [])

/-! ## `TempMailProvider.create_email` (src/main.py lines 22-78) -/

/-- The mutable attributes of a `TempMailProvider` instance. -/
structure ProviderState where
  provider : Option String
  email : Option String
  token : PyVal
  password : Option String

/-- `TempMailProvider.__init__`: every attribute starts as `None`. -/
def initProviderState : ProviderState :=
  { provider := Option.none, email := Option.none, token := PyVal.none, password := Option.none }

/-- `_create_mailtm_account` (lines 58-78).  Network outcomes are passed
in: `domainsResp` is `GET /domains` (`.error` = raised, `.ok` = parsed
body after `raise_for_status`), `pick` models the `random.choice` draws,
`user`/`pw` the random account data, `acctOk` whether the accounts POST
passes `raise_for_status`, and `tokenResp` the token POST outcome.
Returns the updated state and `some e` when an exception `e` escapes. -/
def create_mailtm_account (st : ProviderState) (domainsResp : Except String PyVal)
    (pick : Nat) (user pw : String) (acctOk : Bool) (tokenResp : Except String PyVal) :
    ProviderState × Option String :=
  match domainsResp with
  | .error e => (st, some e)
  | .ok body =>
    match pyDictGet body "hydra:member" (PyVal.list []) with
    | .error e => (st, some e)
    | .ok members =>
      match pyChoice members pick with
      | .error e => (st, some e)
      | .ok member =>
        match pyDictGet member "domain" PyVal.none with
        | .error e => (st, some e)
        | .ok domainV =>
          let st := { st with email := some (user ++ "@" ++ pyStrOf domainV) }
          let st := { st with password := some pw }
          if !acctOk then (st, some "HTTPError")
          else
            match tokenResp with
            | .error e => (st, some e)
            | .ok tbody =>
              match pyDictGet tbody "token" PyVal.none with
              | .error e => (st, some e)
              | .ok tok => ({ st with token := tok }, Option.none)

/-- The Temp-Mail.org branch of `create_email` (lines 39-47).
`getResp` is the domains GET: `.error` = raised; `.ok (ok?, parse)`
carries `resp.ok` and the outcome of `resp.json()` (only consulted when
`ok?`).  Succeeds with the updated state and the address. -/
def tempmail_create (st : ProviderState) (getResp : Except String (Bool × Except String PyVal))
    (user : String) (pick : Nat) : Except String (ProviderState × String) :=
  match getResp with
  | .error e => .error e
  | .ok (respOk, parse) =>
    match (if respOk then parse else .ok (.list [.str "temp-mail.org", .str "mailtemp.net"])) with
    | .error e => .error e
    | .ok domains =>
      match pyChoice domains pick with
      | .error e => .error e
      | .ok d =>
        let em := user ++ "@" ++ pyStrOf d
        .ok ({ st with email := some em, provider := some "tempmail_org" }, em)

/-- All the modelled randomness and network outcomes consumed by one run
of `create_email`. -/
structure CreateEnv where
  mailtmDomainsResp : Except String PyVal
  mailtmPick : Nat
  mailtmUser : String
  mailtmPw : String
  mailtmAcctOk : Bool
  mailtmTokenResp : Except String PyVal
  tempmailGetResp : Except String (Bool × Except String PyVal)
  tempmailUser : String
  tempmailPick : Nat
  maildropUser : String

/-- `create_email` (lines 28-56): Mail.tm, then Temp-Mail.org, then the
offline Maildrop fallback.  Total — the Maildrop branch performs no
fallible operation, so creation as a whole never fails. -/
def create_email (env : CreateEnv) (st : ProviderState) : ProviderState × String :=
  let r1 := create_mailtm_account st env.mailtmDomainsResp env.mailtmPick
              env.mailtmUser env.mailtmPw env.mailtmAcctOk env.mailtmTokenResp
  match r1.2 with
  | Option.none =>
    let stA := { r1.1 with provider := some "mailtm" }
    (stA, stA.email.getD "")
  | some _ =>
    match tempmail_create r1.1 env.tempmailGetResp env.tempmailUser env.tempmailPick with
    | .ok (st2, em) => (st2, em)
    | .error _ =>
      let em := env.maildropUser ++ "@maildrop.cc"
      ({ r1.1 with email := some em, provider := some "maildrop" }, em)

/-- The three provider branches of `get_messages` / `read_message`. -/
inductive Adapter where
  | mailtm
  | tempmail_org
  | maildrop

/-- The `if self.provider == "mailtm" / elif "tempmail_org" / else`
dispatch shared by `get_messages` and `read_message` (lines 81-94,
97-118): every list/read call routes to the branch selected by the
stored provider. -/
def dispatch_provider (st : ProviderState) : Adapter :=
  if st.provider = some "mailtm" then .mailtm
  else if st.provider = some "tempmail_org" then .tempmail_org
  else .maildrop

/-! ## Link extraction (src/main.py lines 220-221) -/

/-- The literal head of the pattern
`https://my\.avira\.com/en/auth/login\?[^\s"<>]+`. -/
def aviraHead : List Char := "https://my.avira.com/en/auth/login?".toList

/-- A character that terminates the match: Python `\s` (ASCII range),
double quote, or an angle bracket — the complement of `[^\s"<>]`. -/
def isLinkTerm (c : Char) : Bool :=
  c == ' ' || c == '\t' || c == '\n' || c == '\r' || c == '\x0b' || c == '\x0c' ||
  c == '"' || c == '<' || c == '>'

/-- Greedy `[^\s"<>]+` body: the longest run of non-terminator chars. -/
def takeLinkBody : List Char → List Char
  | [] => []
  | c :: rest => if isLinkTerm c then [] else c :: takeLinkBody rest

/-- `re.search` for the activation-link pattern: leftmost position where
the literal head matches and at least one body character follows. -/
def searchAvira : List Char → Option (List Char)
  | [] => Option.none
  | c :: rest =>
    if aviraHead.isPrefixOf (c :: rest) then
      let body := takeLinkBody ((c :: rest).drop aviraHead.length)
      if body.isEmpty then searchAvira rest
      else Option.some (aviraHead ++ body)
    else searchAvira rest

/-- The characters removed by `.rstrip('.,);')`. -/
def rstripChars : List Char := ['.', ',', ')', ';']

/-- Python `s.rstrip('.,);')`: drop the trailing run of those chars. -/
def pyRstrip (s : List Char) : List Char :=
  (s.reverse.dropWhile (fun c => rstripChars.contains c)).reverse

/-- The link extractor of `get_activation_link` (lines 220-221):
`re.search(r'https://my\.avira\.com/en/auth/login\?[^\s"<>]+', content)`
followed by `.group(0).rstrip('.,);')`; `none` when there is no match. -/
def find_activation_link (content : String) : Option String :=
  (searchAvira content.toList).map (fun m => String.mk (pyRstrip m))

/-! ## `AviraAutomation.get_activation_link` (src/main.py lines 211-225) -/

/-- One pass of the `for m in msgs` loop (lines 217-223): takes the
adapter's `read_message` as a function of the message id, returns the
outcome (`some link` on the first extracted link) together with the ids
for which `read_message` was actually invoked, in order. -/
def pollTick (read : PyVal → Except String String) :
    List PyVal → Except String (Option String) × List PyVal
  | [] => (.ok Option.none, [])
  | m :: rest =>
    match pyDictGet m "id" PyVal.none with
    | .error e => (.error e, [])
    | .ok mid =>
      match read mid with
      | .error e => (.error e, [mid])
      | .ok content =>
        match find_activation_link content with
        | Option.some l => (.ok (Option.some l), [mid])
        | Option.none =>
          let r := pollTick read rest
          (r.1, mid :: r.2)

/-- The polling loop of `get_activation_link` (lines 213-225): while
elapsed time is below the 300-second deadline, fetch the tick's listing
(`listings k`, `.error` = `get_messages` raised), scan it, and on no
link sleep 5 seconds and retry; past the deadline raise the timeout
exception (modelled as `.error "Timeout"`).  In this model the clock
advances exactly by the `time.sleep(5)` between attempts. -/
def get_activation_link (read : PyVal → Except String String)
    (listings : Nat → Except String (List PyVal)) (k elapsed : Nat) :
    Except String String :=
  if _h : elapsed < 300 then
    match listings k with
    | .error e => .error e
    | .ok msgs =>
      match pollTick read msgs with
      | (.error e, _) => .error e
      | (.ok (Option.some l), _) => .ok l
      | (.ok Option.none, _) => get_activation_link read listings (k + 1) (elapsed + 5)
  else .error "Timeout"
termination_by 300 - elapsed
decreasing_by omega

/-! ## Spec-side normalization (for the refinement statements of C1) -/

/-- Modelled from the spec's words for `readMessage` normalization: an
absent optional field is the empty string, a single string stands for
itself, and a list of fragments is concatenated into one string. -/
def specNormField : PyVal → Option String
  | .none => Option.some ""
  | .str s => Option.some s
  | .list xs => (joinStrs xs).toOption
  | _ => Option.none

/-- Modelled from the spec's words, restricted to the shapes the
Maildrop adapter handles: absent field → empty string, string → itself
(no fragment lists). -/
def specNormStrField : PyVal → Option String
  | .none => Option.some ""
  | .str s => Option.some s
  | _ => Option.none

/-- Does a message dict fail the `m.get("id") == msg_id` test of the
`tempmail_org` read loop?  (Non-dicts are counted as "no match" — they
would raise before matching.) -/
def tempmailNoMatch (msg_id : String) (m : PyVal) : Bool :=
  match m with
  | .dict fs => !((lookupField fs "id").getD PyVal.none == PyVal.str msg_id)
  | _ => true

/-- A concrete creation environment in which Mail.tm is unreachable and
the Temp-Mail.org domains call succeeds. -/
def envAB : CreateEnv :=
  { mailtmDomainsResp := .error "ConnectionError", mailtmPick := 0, mailtmUser := "alice",
    mailtmPw := "pw", mailtmAcctOk := true, mailtmTokenResp := .error "x",
    tempmailGetResp := .ok (true, .ok (.list [.str "temp-mail.org"])), tempmailUser := "bob12",
    tempmailPick := 0, maildropUser := "carol" }

/-- A concrete creation environment in which both Mail.tm and
Temp-Mail.org are unreachable. -/
def envAC : CreateEnv :=
  { mailtmDomainsResp := .error "ConnectionError", mailtmPick := 0, mailtmUser := "alice",
    mailtmPw := "pw", mailtmAcctOk := true, mailtmTokenResp := .error "x",
    tempmailGetResp := .error "ConnectionError", tempmailUser := "bob12",
    tempmailPick := 0, maildropUser := "carol" }

/-! ## Helper lemmas -/

@[simp] theorem except_ok_bind {α β ε : Type} (a : α) (f : α → Except ε β) :
    (Except.ok a >>= f) = f a := rfl

@[simp] theorem except_error_bind {α β ε : Type} (e : ε) (f : α → Except ε β) :
    ((Except.error e : Except ε α) >>= f) = Except.error e := rfl

@[simp] theorem except_ok_map {α β ε : Type} (g : α → β) (a : α) :
    (g <$> (Except.ok a : Except ε α)) = Except.ok (g a) := rfl

@[simp] theorem except_error_map {α β ε : Type} (g : α → β) (e : ε) :
    (g <$> (Except.error e : Except ε α)) = Except.error e := rfl

@[simp] theorem except_pure_eq_ok {α ε : Type} (a : α) :
    (pure a : Except ε α) = Except.ok a := rfl

/-- The `or ""` / fragment-join step of the `mailtm` branch agrees with
the spec-side field normalization whenever the latter is defined. -/
theorem normField_step (v : PyVal) (t : String)
    (ht : specNormField v = Option.some t) :
    mailtmPart v = Except.ok t := by
  unfold mailtmPart
  cases v with
  | none =>
    simp only [specNormField, Option.some.injEq] at ht
    simp [pyOr, PyVal.truthy, ← ht]
  | str s =>
    simp only [specNormField, Option.some.injEq] at ht
    subst ht
    by_cases hs : s = "" <;> simp [pyOr, PyVal.truthy, hs]
  | list xs =>
    simp only [specNormField] at ht
    have hj : joinStrs xs = Except.ok t := by
      cases hx : joinStrs xs <;> simp [hx, Except.toOption] at ht
      simp [ht]
    cases xs with
    | nil =>
      have : t = "" := by
        have := hj
        simp [joinStrs] at this
        exact this.symm
      simp [pyOr, PyVal.truthy, this]
    | cons y ys => simp [pyOr, PyVal.truthy, hj]
  | bool b => simp [specNormField] at ht
  | int n => simp [specNormField] at ht
  | dict gs => simp [specNormField] at ht

/-- The `(x or "")` step of the `maildrop` branch agrees with the
spec-side string-field normalization whenever the latter is defined. -/
theorem strField_step (v : PyVal) (t : String)
    (ht : specNormStrField v = Option.some t) :
    asStr (pyOr v (.str "")) = Except.ok t := by
  cases v with
  | none =>
    simp only [specNormStrField, Option.some.injEq] at ht
    simp [pyOr, PyVal.truthy, asStr, ← ht]
  | str s =>
    simp only [specNormStrField, Option.some.injEq] at ht
    subst ht
    by_cases hs : s = "" <;> simp [pyOr, PyVal.truthy, asStr, hs]
  | bool b => simp [specNormStrField] at ht
  | int n => simp [specNormStrField] at ht
  | list xs => simp [specNormStrField] at ht
  | dict gs => simp [specNormStrField] at ht

/-- The `tempmail_org` read loop skips over a block of non-matching
message dicts. -/
theorem tempmail_skip (msg_id : String) (pre rest : List PyVal)
    (hd : pre.all PyVal.isDict = true)
    (hn : pre.all (tempmailNoMatch msg_id) = true) :
    read_message_tempmail (pre ++ rest) msg_id = read_message_tempmail rest msg_id := by
  induction pre with
  | nil => rfl
  | cons m ms ih =>
    simp only [List.all_cons, Bool.and_eq_true] at hd hn
    cases m with
    | dict fs =>
      have hfalse : ((lookupField fs "id").getD PyVal.none == PyVal.str msg_id) = false := by
        have := hn.1
        simpa [tempmailNoMatch] using this
      simp [read_message_tempmail, pyDictGet, hfalse, ih hd.2 hn.2]
    | none => simp [PyVal.isDict] at hd
    | bool b => simp [PyVal.isDict] at hd
    | int n => simp [PyVal.isDict] at hd
    | str s => simp [PyVal.isDict] at hd
    | list xs => simp [PyVal.isDict] at hd

/-- The `tempmail_org` read loop, on reaching a message dict whose
`"id"` matches, returns its first available text field. -/
theorem tempmail_found (msg_id : String) (fs : List (String × PyVal)) (post : List PyVal)
    (hm : ((lookupField fs "id").getD PyVal.none == PyVal.str msg_id) = true) :
    read_message_tempmail (PyVal.dict fs :: post) msg_id
      = .ok (pyOr ((lookupField fs "mail_text").getD PyVal.none)
              (pyOr ((lookupField fs "text").getD PyVal.none)
                    ((lookupField fs "body").getD (PyVal.str "")))) := by
  simp [read_message_tempmail, pyDictGet, hm]

/-- A `tempmail_org` read over an all-dict listing with no matching id
returns the empty string as a success value. -/
theorem tempmail_nomatch (msg_id : String) (listing : List PyVal)
    (hd : listing.all PyVal.isDict = true)
    (hn : listing.all (tempmailNoMatch msg_id) = true) :
    read_message_tempmail listing msg_id = .ok (.str "") := by
  have h := tempmail_skip msg_id listing [] hd hn
  rw [List.append_nil] at h
  rw [h]
  rfl

/-- A successful Temp-Mail.org creation sets the provider to
`tempmail_org` and touches neither the password nor the token. -/
theorem tempmail_create_ok (st st2 : ProviderState)
    (g : Except String (Bool × Except String PyVal)) (u : String) (p : Nat) (em : String)
    (h : tempmail_create st g u p = .ok (st2, em)) :
    st2.provider = some "tempmail_org" ∧ st2.password = st.password ∧ st2.token = st.token := by
  unfold tempmail_create at h
  split at h
  · exact absurd h (by simp)
  · split at h
    · exact absurd h (by simp)
    · split at h
      · exact absurd h (by simp)
      · simp only [Except.ok.injEq, Prod.mk.injEq] at h
        obtain ⟨h1, _⟩ := h
        subst h1
        exact ⟨rfl, rfl, rfl⟩

/-- A failed Mail.tm account creation never touches the stored token or
provider (only `email` and `password` may have been assigned before the
failing call). -/
theorem mailtm_fail_preserves (st : ProviderState) (dr : Except String PyVal)
    (pick : Nat) (user pw : String) (acctOk : Bool) (tr : Except String PyVal)
    (hf : (create_mailtm_account st dr pick user pw acctOk tr).2.isSome = true) :
    (create_mailtm_account st dr pick user pw acctOk tr).1.token = st.token ∧
    (create_mailtm_account st dr pick user pw acctOk tr).1.provider = st.provider := by
  cases dr with
  | error e => simp [create_mailtm_account]
  | ok body =>
    rcases h1 : pyDictGet body "hydra:member" (PyVal.list []) with e | members
    · simp [create_mailtm_account, h1]
    · rcases h2 : pyChoice members pick with e | member
      · simp [create_mailtm_account, h1, h2]
      · rcases h3 : pyDictGet member "domain" PyVal.none with e | domainV
        · simp [create_mailtm_account, h1, h2, h3]
        · cases acctOk with
          | false => simp [create_mailtm_account, h1, h2, h3]
          | true =>
            cases tr with
            | error e => simp [create_mailtm_account, h1, h2, h3]
            | ok tbody =>
              rcases h4 : pyDictGet tbody "token" PyVal.none with e | tok
              · simp [create_mailtm_account, h1, h2, h3, h4]
              · simp [create_mailtm_account, h1, h2, h3, h4] at hf

theorem searchAvira_requires_head : ∀ (cs m : List Char),
    searchAvira cs = Option.some m → aviraHead <:+: cs := by
  intro cs
  induction cs with
  | nil => intro m h; simp [searchAvira] at h
  | cons c rest ih =>
    intro m h
    cases hp : aviraHead.isPrefixOf (c :: rest) with
    | true =>
      have hpre : aviraHead <+: (c :: rest) := by
        rw [← List.isPrefixOf_iff_prefix]
        exact hp
      exact List.IsPrefix.isInfix hpre
    | false =>
      simp only [searchAvira, hp, Bool.false_eq_true, if_false] at h
      exact List.infix_cons (ih m h)

/-- Claim C4: `findActivationLink` returns the first substring of the
content starting with the literal prefix
`https://my.avira.com/en/auth/login?` followed by a query component,
terminated at the first whitespace, angle-bracket, or double-quote
character, with trailing `. , ) ;` punctuation stripped; on the spec's
example it returns the stripped link, and it returns `none` (not an
error) when no substring matches — in particular whenever the literal
prefix does not occur in the content at all. -/
theorem C4_extract_first_link :
    find_activation_link "click https://my.avira.com/en/auth/login?token=abc123. thanks"
      = Option.some "https://my.avira.com/en/auth/login?token=abc123"
  ∧ find_activation_link "no activation link here" = Option.none
  ∧ (∀ content : String, ¬ aviraHead <:+: content.toList →
      find_activation_link content = Option.none) := by
  refine ⟨by rfl, by rfl, ?_⟩
  intro content hni
  cases hs : searchAvira content.toList with
  | none => unfold find_activation_link; rw [hs]; rfl
  | some m => exact absurd (searchAvira_requires_head content.toList m hs) hni

/-- Claim C4 witness: the no-match branch at a concrete content. -/
theorem C4_witness : find_activation_link "hello world" = Option.none :=
  C4_extract_first_link.2.2 "hello world" (by decide)

/-- Claim C1 (amended): the `mailtm` adapter's `readMessage` returns the
normalized concatenation text + newline + markup, substituting the empty
string for an absent field and concatenating a field given as a list of
fragments; the `maildrop` adapter returns the same concatenation for
absent-or-string fields (it does not handle fragment lists); the
`tempmail_org` adapter does NOT produce this concatenation — it returns
the first truthy of the matching message's `mail_text` / `text` fields,
else its `body` field (default empty). -/
theorem C1_read_normalization :
    (∀ (fs : List (String × PyVal)) (t h : String),
      specNormField ((lookupField fs "text").getD PyVal.none) = Option.some t →
      specNormField ((lookupField fs "html").getD PyVal.none) = Option.some h →
      read_message_mailtm (.dict fs) = .ok (t ++ "\n" ++ h))
  ∧ (∀ (fs : List (String × PyVal)) (t h : String),
      specNormStrField ((lookupField fs "data").getD PyVal.none) = Option.some t →
      specNormStrField ((lookupField fs "html").getD PyVal.none) = Option.some h →
      read_message_maildrop (.dict [("data", .dict [("message", .dict fs)])]) = .ok (t ++ "\n" ++ h))
  ∧ (∀ (fs : List (String × PyVal)) (msg_id : String) (post : List PyVal),
      ((lookupField fs "id").getD PyVal.none == PyVal.str msg_id) = true →
      read_message_tempmail (PyVal.dict fs :: post) msg_id
        = .ok (pyOr ((lookupField fs "mail_text").getD PyVal.none)
                (pyOr ((lookupField fs "text").getD PyVal.none)
                      ((lookupField fs "body").getD (PyVal.str ""))))) := by
  refine ⟨?_, ?_, ?_⟩
  · intro fs t h ht hh
    have e1 := normField_step _ _ ht
    have e2 := normField_step _ _ hh
    simp [read_message_mailtm, pyDictGet, e1, e2]
  · intro fs t h ht hh
    have e1 := strField_step _ _ ht
    have e2 := strField_step _ _ hh
    have g1 : pyDictGet (PyVal.dict [("data", PyVal.dict [("message", PyVal.dict fs)])]) "data" (PyVal.dict [])
        = .ok (PyVal.dict [("message", PyVal.dict fs)]) := rfl
    have g2 : pyDictGet (PyVal.dict [("message", PyVal.dict fs)]) "message" (PyVal.dict [])
        = .ok (PyVal.dict fs) := rfl
    have g3 : pyDictGet (PyVal.dict fs) "data" PyVal.none
        = Except.ok ((lookupField fs "data").getD PyVal.none) := rfl
    have g4 : pyDictGet (PyVal.dict fs) "html" PyVal.none
        = Except.ok ((lookupField fs "html").getD PyVal.none) := rfl
    simp only [read_message_maildrop]
    rw [g1]
    simp only [except_ok_bind]
    rw [g2]
    simp only [except_ok_bind]
    rw [g3]
    simp only [except_ok_bind]
    rw [g4]
    simp only [except_ok_bind, e1, e2, except_pure_eq_ok]
  · intro fs msg_id post hm
    exact tempmail_found msg_id fs post hm

/-- Claim C1 counterexample: for the `tempmail_org` adapter and the
canned backend message with text part `"T"` and markup part `"H"`,
`readMessage` returns `"T"`, not the normalization `"T" ++ "\n" ++ "H"`
required by the claim. -/
theorem C1_counterexample :
    read_message_tempmail
      [PyVal.dict [("id", PyVal.str "m1"), ("mail_text", PyVal.str "T"), ("mail_html", PyVal.str "H")]]
      "m1" = Except.ok (PyVal.str "T") ∧ ("T" : String) ≠ "T" ++ "\n" ++ "H" := by
  constructor
  · rfl
  · decide

/-- Claim C1 witness: a fragment-list text field in the `mailtm`
adapter, with the markup field absent. -/
theorem C1_witness :
    read_message_mailtm (PyVal.dict [("text", PyVal.list [PyVal.str "a", PyVal.str "b"])])
      = Except.ok ("ab" ++ "\n" ++ "") :=
  C1_read_normalization.1 [("text", PyVal.list [PyVal.str "a", PyVal.str "b"])] "ab" "" (by rfl) (by rfl)

/-- Claim C5: within one poll tick, messages are processed in listing
order, and when the first message's content yields a link the poller
returns that link immediately: for a two-message listing the trace of
`readMessage` invocations is exactly the first message's id — the second
message is never read. -/
theorem C5_short_circuit (read : PyVal → Except String String) (m1 m2 : PyVal)
    (id1 : PyVal) (c l : String)
    (h1 : pyDictGet m1 "id" PyVal.none = .ok id1)
    (h2 : read id1 = .ok c)
    (h3 : find_activation_link c = Option.some l) :
    pollTick read [m1, m2] = (.ok (Option.some l), [id1]) := by
  simp [pollTick, h1, h2, h3]

/-- Claim C5 witness: a concrete two-message listing where the first
message yields a link. -/
theorem C5_witness :
    pollTick (fun _ => .ok "https://my.avira.com/en/auth/login?x")
      [PyVal.dict [("id", PyVal.str "a")], PyVal.dict [("id", PyVal.str "b")]]
      = (.ok (Option.some "https://my.avira.com/en/auth/login?x"), [PyVal.str "a"]) :=
  C5_short_circuit _ _ _ _ _ _ (by rfl) (by rfl) (by rfl)

/-- Claim C7 counterexample: a `tempmail_org` read for the id `"b"`,
absent from the (all-dict) listing, returns the success value `""`
rather than failing with `MessageNotFound`. -/
theorem C7_counterexample :
    read_message_tempmail [PyVal.dict [("id", PyVal.str "a")]] "b" = Except.ok (PyVal.str "") := by
  rfl

/-- Claim C7 (amended): no adapter signals `MessageNotFound`: for the
only adapter that consults the listing at all (`tempmail_org`), a read
with an id that matches no message of an all-dict listing succeeds with
the empty string (the `mailtm` and `maildrop` adapters ignore the
listing entirely and normalize whatever the id-keyed fetch returns). -/
theorem C7_no_MessageNotFound (listing : List PyVal) (msg_id : String)
    (hd : listing.all PyVal.isDict = true)
    (hn : listing.all (tempmailNoMatch msg_id) = true) :
    read_message_tempmail listing msg_id = .ok (.str "") :=
  tempmail_nomatch msg_id listing hd hn

/-- Claim C7 witness: a concrete non-empty listing without the id. -/
theorem C7_witness :
    read_message_tempmail [PyVal.dict [("id", PyVal.str "x1")]] "zzz" = Except.ok (PyVal.str "") :=
  C7_no_MessageNotFound [PyVal.dict [("id", PyVal.str "x1")]] "zzz" (by rfl) (by rfl)

/-- Claim C10: the `tempmail_org` adapter's `readMessage` is a fresh
listing fetch filtered by id: skipping any block of non-matching message
dicts, the first message whose `"id"` matches yields
`mail_text or text or body-with-empty-default`, and when no message of
the listing matches the result is the empty string as a success
value. -/
theorem C10_tempmail_read_by_filter :
    (∀ (msg_id : String) (pre post : List PyVal) (fs : List (String × PyVal)),
      pre.all PyVal.isDict = true →
      pre.all (tempmailNoMatch msg_id) = true →
      ((lookupField fs "id").getD PyVal.none == PyVal.str msg_id) = true →
      read_message_tempmail (pre ++ PyVal.dict fs :: post) msg_id
        = .ok (pyOr ((lookupField fs "mail_text").getD PyVal.none)
                (pyOr ((lookupField fs "text").getD PyVal.none)
                      ((lookupField fs "body").getD (PyVal.str "")))))
  ∧ (∀ (msg_id : String) (listing : List PyVal),
      listing.all PyVal.isDict = true →
      listing.all (tempmailNoMatch msg_id) = true →
      read_message_tempmail listing msg_id = .ok (.str "")) := by
  constructor
  · intro msg_id pre post fs hd hn hm
    rw [tempmail_skip msg_id pre _ hd hn]
    exact tempmail_found msg_id fs post hm
  · intro msg_id listing hd hn
    exact tempmail_nomatch msg_id listing hd hn

/-- Claim C10 witness: a concrete listing whose second message matches
the requested id. -/
theorem C10_witness :
    read_message_tempmail
      [PyVal.dict [("id", PyVal.str "a")],
       PyVal.dict [("id", PyVal.str "b"), ("text", PyVal.str "hello")]] "b"
      = Except.ok (PyVal.str "hello") :=
  C10_tempmail_read_by_filter.1 "b" [PyVal.dict [("id", PyVal.str "a")]] []
    [("id", PyVal.str "b"), ("text", PyVal.str "hello")] (by rfl) (by rfl) (by rfl)

/-- Claim C2: when the Mail.tm creation attempt fails (its helper
raises at any step) and the Temp-Mail.org attempt succeeds, the active
provider after `create_email` is `tempmail_org` — never `mailtm` — and
the `get_messages` / `read_message` dispatch consequently routes every
subsequent list/read call to the Temp-Mail.org branch. -/
theorem C2_fallback_to_tempmail (env : CreateEnv) (st st2 : ProviderState) (em : String)
    (hA : (create_mailtm_account st env.mailtmDomainsResp env.mailtmPick env.mailtmUser
            env.mailtmPw env.mailtmAcctOk env.mailtmTokenResp).2.isSome = true)
    (hB : tempmail_create (create_mailtm_account st env.mailtmDomainsResp env.mailtmPick
            env.mailtmUser env.mailtmPw env.mailtmAcctOk env.mailtmTokenResp).1
            env.tempmailGetResp env.tempmailUser env.tempmailPick = .ok (st2, em)) :
    (create_email env st).1.provider = some "tempmail_org" ∧
    (create_email env st).1.provider ≠ some "mailtm" ∧
    dispatch_provider (create_email env st).1 = Adapter.tempmail_org := by
  have hp := tempmail_create_ok _ _ _ _ _ _ hB
  have hce : (create_email env st).1 = st2 := by
    unfold create_email
    rcases hr : (create_mailtm_account st env.mailtmDomainsResp env.mailtmPick env.mailtmUser
            env.mailtmPw env.mailtmAcctOk env.mailtmTokenResp).2 with _ | e
    · rw [hr] at hA; simp at hA
    · simp only [hr, hB]
  rw [hce]
  refine ⟨hp.1, ?_, ?_⟩
  · rw [hp.1]; intro hcontra; simp at hcontra
  · unfold dispatch_provider; rw [hp.1]; simp

/-- Claim C3: when both the Mail.tm and the Temp-Mail.org creation
attempts fail, `create_email` succeeds via the Maildrop branch with an
address ending in the fixed domain `@maildrop.cc` (the address is the
random local part appended to `@maildrop.cc`); the branch performs no
fallible operation, and `create_email` is a total function — creation as
a whole never fails. -/
theorem C3_maildrop_always (env : CreateEnv) (st : ProviderState) (e : String)
    (hA : (create_mailtm_account st env.mailtmDomainsResp env.mailtmPick env.mailtmUser
            env.mailtmPw env.mailtmAcctOk env.mailtmTokenResp).2.isSome = true)
    (hB : tempmail_create (create_mailtm_account st env.mailtmDomainsResp env.mailtmPick
            env.mailtmUser env.mailtmPw env.mailtmAcctOk env.mailtmTokenResp).1
            env.tempmailGetResp env.tempmailUser env.tempmailPick = .error e) :
    (create_email env st).1.provider = some "maildrop" ∧
    (create_email env st).2 = env.maildropUser ++ "@maildrop.cc" ∧
    (create_email env st).1.email = some (env.maildropUser ++ "@maildrop.cc") := by
  unfold create_email
  rcases hr : (create_mailtm_account st env.mailtmDomainsResp env.mailtmPick env.mailtmUser
          env.mailtmPw env.mailtmAcctOk env.mailtmTokenResp).2 with _ | e2
  · rw [hr] at hA; simp at hA
  · simp [hr, hB]

/-- Claim C2 witness: Mail.tm unreachable, Temp-Mail.org reachable. -/
theorem C2_witness :
    (create_email envAB initProviderState).1.provider = some "tempmail_org" ∧
    (create_email envAB initProviderState).1.provider ≠ some "mailtm" ∧
    dispatch_provider (create_email envAB initProviderState).1 = Adapter.tempmail_org :=
  C2_fallback_to_tempmail envAB initProviderState
    { provider := some "tempmail_org", email := some "bob12@temp-mail.org",
      token := PyVal.none, password := Option.none }
    "bob12@temp-mail.org" (by rfl) (by rfl)

/-- Claim C3 witness: both remote backends unreachable. -/
theorem C3_witness :
    (create_email envAC initProviderState).1.provider = some "maildrop" ∧
    (create_email envAC initProviderState).2 = "carol" ++ "@maildrop.cc" ∧
    (create_email envAC initProviderState).1.email = some ("carol" ++ "@maildrop.cc") :=
  C3_maildrop_always envAC initProviderState "ConnectionError" (by rfl) (by rfl)

/-- Claim C6: for every run of the activation poller in which no listed
message ever yields a link, the loop — which advances the clock by the
fixed 5-second sleep between listing attempts — terminates once elapsed
time reaches the 300-second deadline, failing with the timeout error
rather than looping forever. -/
theorem C6_timeout (read : PyVal → Except String String)
    (listings : Nat → Except String (List PyVal))
    (h : ∀ n, ∃ ms, listings n = .ok ms ∧ (pollTick read ms).1 = .ok Option.none) :
    ∀ k elapsed, get_activation_link read listings k elapsed = .error "Timeout" := by
  have H : ∀ fuel k elapsed, 300 - elapsed ≤ fuel →
      get_activation_link read listings k elapsed = .error "Timeout" := by
    intro fuel
    induction fuel with
    | zero =>
      intro k elapsed hle
      have h300 : ¬ elapsed < 300 := by omega
      rw [get_activation_link, dif_neg h300]
    | succ n ih =>
      intro k elapsed hle
      by_cases hlt : elapsed < 300
      · obtain ⟨ms, hms, htick⟩ := h k
        rw [get_activation_link, dif_pos hlt]
        split
        · next e heq => rw [hms] at heq; cases heq
        · next msgs heq =>
          rw [hms] at heq
          injection heq with heq
          subst heq
          split
          · next e snd heq2 => rw [heq2] at htick; simp at htick
          · next l snd heq2 => rw [heq2] at htick; simp at htick
          · next snd heq2 => exact ih (k + 1) (elapsed + 5) (by omega)
      · rw [get_activation_link, dif_neg hlt]
  intro k elapsed
  exact H 300 k elapsed (by omega)

/-- Claim C6 witness: a backend whose listing is always empty. -/
theorem C6_witness :
    get_activation_link (fun _ => .error "boom") (fun _ => .ok []) 0 0 = .error "Timeout" :=
  C6_timeout (fun _ => .error "boom") (fun _ => .ok []) (fun _ => ⟨[], rfl, rfl⟩) 0 0

/-- Claim C8 counterexample: for the `mailtm` adapter, a malformed
response body that is a JSON array (not an object) makes `listMessages`
raise `AttributeError` instead of degrading to an empty sequence. -/
theorem C8_counterexample :
    get_messages_mailtm (PyVal.list []) = Except.error "AttributeError" := rfl

/-- Claim C8 (amended): `listMessages` tolerates a missing field when
the response body is a JSON object — the field defaults to an empty list
for `mailtm` and `maildrop` (including a missing nested `inbox`) — and
`tempmail_org` returns an empty list on any non-2xx response without
reading the body; but a present field value is returned as-is (even if
malformed) rather than degraded to an empty sequence, and a body that is
not a JSON object raises `AttributeError` for `mailtm`. -/
theorem C8_list_tolerance :
    (∀ fs : List (String × PyVal), lookupField fs "hydra:member" = Option.none →
      get_messages_mailtm (.dict fs) = .ok (.list []))
  ∧ (∀ (fs : List (String × PyVal)) (v : PyVal), lookupField fs "hydra:member" = Option.some v →
      get_messages_mailtm (.dict fs) = .ok v)
  ∧ (∀ parse : Except String PyVal, get_messages_tempmail false parse = .ok (.list []))
  ∧ (∀ fs : List (String × PyVal), lookupField fs "data" = Option.none →
      get_messages_maildrop (.dict fs) = .ok (.list []))
  ∧ (∀ (fs gs : List (String × PyVal)), lookupField fs "data" = Option.some (.dict gs) →
      lookupField gs "inbox" = Option.none →
      get_messages_maildrop (.dict fs) = .ok (.list []))
  ∧ (∀ xs : List PyVal, get_messages_mailtm (.list xs) = .error "AttributeError") := by
  refine ⟨?_, ?_, ?_, ?_, ?_, ?_⟩
  · intro fs hnone
    simp [get_messages_mailtm, pyDictGet, hnone]
  · intro fs v hv
    simp [get_messages_mailtm, pyDictGet, hv]
  · intro parse
    rfl
  · intro fs hnone
    have g1 : pyDictGet (PyVal.dict fs) "data" (PyVal.dict [])
        = Except.ok ((lookupField fs "data").getD (PyVal.dict [])) := rfl
    simp only [get_messages_maildrop, g1, hnone, Option.getD_none, except_ok_bind]
    rfl
  · intro fs gs h1 h2
    have g1 : pyDictGet (PyVal.dict fs) "data" (PyVal.dict [])
        = Except.ok ((lookupField fs "data").getD (PyVal.dict [])) := rfl
    simp only [get_messages_maildrop, g1, h1, Option.getD_some, except_ok_bind]
    have g2 : pyDictGet (PyVal.dict gs) "inbox" (PyVal.list [])
        = Except.ok ((lookupField gs "inbox").getD (PyVal.list [])) := rfl
    rw [g2, h2]
    rfl
  · intro xs
    rfl

/-- Claim C8 witness: a Maildrop body with no `data` field. -/
theorem C8_witness : get_messages_maildrop (PyVal.dict []) = Except.ok (PyVal.list []) :=
  C8_list_tolerance.2.2.2.1 [] (by rfl)

/-- Claim C9 counterexample: a Mail.tm creation attempt that fails at
the authentication step (token POST returns HTTP 401) leaves the
adapter holding the address `user1@mail.tm` and the password `pw1` from
the failed attempt — visible mailbox state despite the failure. -/
theorem C9_counterexample :
    ((create_mailtm_account initProviderState
        (.ok (PyVal.dict [("hydra:member", PyVal.list [PyVal.dict [("domain", PyVal.str "mail.tm")]])]))
        0 "user1" "pw1" true (.error "HTTP 401")).2 = some "HTTP 401")
  ∧ ((create_mailtm_account initProviderState
        (.ok (PyVal.dict [("hydra:member", PyVal.list [PyVal.dict [("domain", PyVal.str "mail.tm")]])]))
        0 "user1" "pw1" true (.error "HTTP 401")).1.email = some "user1@mail.tm")
  ∧ ((create_mailtm_account initProviderState
        (.ok (PyVal.dict [("hydra:member", PyVal.list [PyVal.dict [("domain", PyVal.str "mail.tm")]])]))
        0 "user1" "pw1" true (.error "HTTP 401")).1.password = some "pw1") :=
  ⟨rfl, rfl, rfl⟩

/-- Claim C9 (amended): mailbox creation is not atomic on failure — the
email and password attributes are assigned before the fallible
registration and authentication calls, so a failed Mail.tm attempt can
leave them set (see the counterexample) — but a failed attempt never
modifies the stored token or provider, and the Temp-Mail.org fallback,
when it succeeds, overwrites email and provider but never the password
left by the failed attempt. -/
theorem C9_not_atomic_but_token_safe :
    (∀ (st : ProviderState) (dr : Except String PyVal) (pick : Nat) (user pw : String)
        (acctOk : Bool) (tr : Except String PyVal),
      (create_mailtm_account st dr pick user pw acctOk tr).2.isSome = true →
      (create_mailtm_account st dr pick user pw acctOk tr).1.token = st.token ∧
      (create_mailtm_account st dr pick user pw acctOk tr).1.provider = st.provider)
  ∧ (∀ (st st2 : ProviderState) (g : Except String (Bool × Except String PyVal))
        (u : String) (p : Nat) (em : String),
      tempmail_create st g u p = .ok (st2, em) → st2.password = st.password) := by
  constructor
  · intro st dr pick user pw acctOk tr hf
    exact mailtm_fail_preserves st dr pick user pw acctOk tr hf
  · intro st st2 g u p em hok
    exact (tempmail_create_ok st st2 g u p em hok).2.1

/-- Claim C9 witness: token preservation at a concrete failing run. -/
theorem C9_witness :
    (create_mailtm_account initProviderState (.error "ConnectionError") 0 "u" "p" true
      (.error "x")).1.token = initProviderState.token :=
  (C9_not_atomic_but_token_safe.1 initProviderState (.error "ConnectionError") 0 "u" "p" true
    (.error "x") (by rfl)).1
